import Mathlib

/-!
Verification of the 2d-nascar race simulation core (src/main.py).

The per-frame simulation of src/main.py is embedded shallowly:
distances and speeds are exact rationals, lane indices are integers,
the three-valued vehicle state machine is an inductive type, and the
in-place mutation loops of the Python code become structural
recursions that thread the updated cars exactly in the order the
Python loops visit them.  Randomness (random.uniform, random.choice)
is modelled as an injected source: a function from a draw counter to
the drawn value, threaded through each pass in the order the Python
code performs its draws.
-/

namespace Nascar

/-- SPEED_SCALE from src/main.py line 22: simulation units per MPH. -/
def SPEED_SCALE : ℚ := 3.8

/-- COLLISION_GAP from src/main.py line 62: minimum same-lane spacing. -/
def COLLISION_GAP : ℚ := 14

/-- CRASH_REL_MPH from src/main.py line 63. -/
def CRASH_REL_MPH : ℚ := 24

/-- LANE_SAFETY_DISTANCE from src/main.py line 64. -/
def LANE_SAFETY_DISTANCE : ℚ := 120

/-- CRASH_REL_UNITS from src/main.py line 66: closing rate above this crashes. -/
def CRASH_REL_UNITS : ℚ := CRASH_REL_MPH * SPEED_SCALE

/-- LANE_CHANGE_COOLDOWN from src/main.py line 17 (controlled car). -/
def LANE_CHANGE_COOLDOWN : ℚ := 0.18

/-- ROLLING_DURATION from src/main.py line 20. -/
def ROLLING_DURATION : ℚ := 5.0

/-- ROLLING_START_MIN_MPH from src/main.py line 23. -/
def ROLLING_START_MIN_MPH : ℚ := 110

/-- ROLLING_START_MAX_MPH from src/main.py line 24. -/
def ROLLING_START_MAX_MPH : ℚ := 200

/-- CONTROLLED_BASE_MPH from src/main.py line 25. -/
def CONTROLLED_BASE_MPH : ℚ := 200

/-- BRAKE_MPH from src/main.py line 26. -/
def BRAKE_MPH : ℚ := 120

/-- The three vehicle states of src/main.py line 735. -/
inductive CarState where
  | RUNNING
  | CRASHING
  | DISABLED
deriving Repr, DecidableEq

open CarState

/-- One AI vehicle: the simulation-relevant fields of class Car
(src/main.py lines 724-738).  The driver identity is abstracted to an
index into the roster; sprites and lane pixel positions are rendering
data outside the core. -/
structure Car where
  lane_index : ℤ
  distance : ℚ
  speed : ℚ
  aggression : ℚ
  lane_change_timer : ℚ
  state : CarState
  crash_timer : ℚ
  spin_angle : ℚ
  spin_speed : ℚ
  driver : ℕ
deriving Repr, DecidableEq

/-- move_toward from src/main.py lines 184-189. -/
def move_toward (value target step : ℚ) : ℚ :=
  if value < target then min (value + step) target
  else if target < value then max (value - step) target
  else value

/-- clamp from src/main.py lines 192-193. -/
def clamp (value minimum maximum : ℚ) : ℚ :=
  max minimum (min value maximum)

/-- Car.update from src/main.py lines 740-767.  Returns the updated
car and the recycle signal (distance < -400). -/
def carUpdate (c : Car) (delta sim_player_speed : ℚ) (control_locked : Bool) :
    Car × Bool :=
  let c := { c with lane_change_timer := max 0 (c.lane_change_timer - delta) }
  match c.state with
  | CRASHING =>
    let c := { c with crash_timer := c.crash_timer - delta,
                      spin_angle := c.spin_angle + c.spin_speed * delta }
    let target := sim_player_speed - 140
    let accel : ℚ := 420
    let c := { c with speed := move_toward c.speed target (accel * delta) }
    let c := { c with distance := c.distance - (c.speed - sim_player_speed) * delta }
    let c := if c.crash_timer ≤ 0 then { c with state := DISABLED } else c
    (c, decide (c.distance < -400))
  | DISABLED =>
    let c := { c with speed := move_toward c.speed (sim_player_speed - 220) (560 * delta) }
    let c := { c with distance := c.distance - (c.speed - sim_player_speed) * delta }
    (c, decide (c.distance < -400))
  | RUNNING =>
    let target := if control_locked then sim_player_speed + (c.aggression - 1) * 12
                  else sim_player_speed + (c.aggression - 1) * 32
    let accel := if control_locked then (280 : ℚ) else 360 * c.aggression
    let c := { c with speed := move_toward c.speed target (accel * delta) }
    let c := { c with distance := c.distance - (c.speed - sim_player_speed) * delta }
    let c := if control_locked then { c with distance := max c.distance (-48) } else c
    (c, decide (c.distance < -400))

/-- Stable insertion step for descending sort by distance: the new car
is placed before the first strictly smaller distance, matching the
stable descending sort the Python passes perform
(lane_cars.sort(key=..., reverse=True)). -/
def insertDesc (c : Car) : List Car → List Car
  | [] => [c]
  | x :: xs => if x.distance ≤ c.distance then c :: x :: xs else x :: insertDesc c xs

/-- Stable descending sort by distance. -/
def sortDesc (l : List Car) : List Car := l.foldr insertDesc []

/-- Occupants of lane index `l`, in collection order (the per-lane
lists built by the defaultdict groupings in apply_drafting and
resolve_collisions). -/
def laneCars (cars : List Car) (l : ℤ) : List Car :=
  cars.filter (fun c => c.lane_index = l)

/-- The distinct lane keys in first-occurrence order, as produced by
the defaultdict insertion order in the Python passes. -/
def laneKeys (cars : List Car) : List ℤ :=
  (cars.map (fun c => c.lane_index)).dedup

/-- The consecutive-pair walk of resolve_collisions
(src/main.py lines 984-1002) over one sorted lane: `a` is the current
ahead car (already final), the head of the remaining list is the
behind car of the current pair.  `rng` is the injected random source
for spin_speed draws and `k` the next draw index. -/
def lanePass (rng : ℕ → ℚ) : Car → List Car → ℕ → List Car × ℕ
  | a, [], k => ([a], k)
  | a, b :: rest, k =>
    if a.state = RUNNING ∧ b.state = RUNNING then
      let gap := a.distance - b.distance
      if gap ≤ COLLISION_GAP then
        if b.speed - a.speed > CRASH_REL_UNITS then
          let a' := { a with state := CRASHING, crash_timer := 1.2, spin_speed := rng k }
          let b' := { b with state := CRASHING, crash_timer := 1.2, spin_speed := rng (k + 1),
                             distance := min b.distance (a.distance - COLLISION_GAP) }
          let r := lanePass rng b' rest (k + 2)
          (a' :: r.1, r.2)
        else
          let transfer := max 0 ((b.speed - a.speed) * 0.45)
          let a' := { a with speed := a.speed + transfer * 0.65 }
          let b' := { b with speed := max 0 (b.speed - transfer * 0.35),
                             distance := min b.distance (a.distance - COLLISION_GAP) }
          let r := lanePass rng b' rest k
          (a' :: r.1, r.2)
      else
        let r := lanePass rng b rest k
        (a :: r.1, r.2)
    else
      let r := lanePass rng b rest k
      (a :: r.1, r.2)

/-- One lane of the pair pass of resolve_collisions: sort the lane
occupants by distance descending, then walk consecutive pairs. -/
def lanePairs (cars : List Car) (rng : ℕ → ℚ) (l : ℤ) : List Car × ℕ :=
  match sortDesc (laneCars cars l) with
  | [] => ([], 0)
  | a :: rest => lanePass rng a rest 0

/-- The controlled-car loop of resolve_collisions
(src/main.py lines 1004-1019): walks the (already pair-passed) player
lane, accumulating the MPH delta for the controlled car. -/
def playerPass (ps : ℚ) (rng : ℕ → ℚ) : List Car → ℕ → ℚ → List Car × ℚ × ℕ
  | [], k, acc => ([], acc, k)
  | c :: rest, k, acc =>
    if c.state = RUNNING ∧ 0 < c.distance ∧ c.distance ≤ COLLISION_GAP then
      if ps - c.speed > CRASH_REL_UNITS then
        let c' := { c with state := CRASHING, crash_timer := 1.2, spin_speed := rng k,
                           distance := max c.distance COLLISION_GAP }
        let r := playerPass ps rng rest (k + 1) (acc - 8)
        (c' :: r.1, r.2)
      else
        let transfer := max 0 ((ps - c.speed) * 0.45)
        let c' := { c with speed := c.speed + transfer * 0.70,
                           distance := max c.distance COLLISION_GAP }
        let r := playerPass ps rng rest k (acc - min 3 (transfer / SPEED_SCALE * 0.35))
        (c' :: r.1, r.2)
    else
      let r := playerPass ps rng rest k acc
      (c :: r.1, r.2)

/-- The final occupants of lane `l` after resolve_collisions: the pair
pass, followed (in the controlled-car lane only) by the player loop. -/
def resolveLaneBlock (cars : List Car) (pl : ℤ) (ps : ℚ) (rng : ℕ → ℚ) (l : ℤ) :
    List Car :=
  let p := lanePairs cars rng l
  if l = pl then (playerPass ps rng p.1 p.2 0).1 else p.1

/-- The MPH delta for the controlled car returned by resolve_collisions. -/
def resolvePlayerDelta (cars : List Car) (pl : ℤ) (ps : ℚ) (rng : ℕ → ℚ) : ℚ :=
  let p := lanePairs cars rng pl
  (playerPass ps rng p.1 p.2 0).2.1

/-- resolve_collisions from src/main.py lines 976-1020: the updated
field (grouped lane by lane in key order) and the MPH delta for the
controlled car. -/
def resolveCollisions (cars : List Car) (pl : ℤ) (ps : ℚ) (rng : ℕ → ℚ) :
    List Car × ℚ :=
  ((laneKeys cars).flatMap (resolveLaneBlock cars pl ps rng),
   resolvePlayerDelta cars pl ps rng)

/-- The slipstream speed addend of apply_drafting
(src/main.py line 953): boost = 28 * (1 - gap / 160). -/
def slipstreamAddend (gap : ℚ) : ℚ := 28 * (1 - gap / 160)

/-- The consecutive-pair walk of apply_drafting
(src/main.py lines 946-959) over one sorted lane. -/
def draftPass : Car → List Car → List Car
  | a, [] => [a]
  | a, b :: rest =>
    let gap := a.distance - b.distance
    if gap ≤ 0 then a :: draftPass b rest
    else
      let b₁ := if gap < 160 then { b with speed := b.speed + slipstreamAddend gap } else b
      if gap < 28 then
        let pressure := (28 - gap) / 28
        let a' := { a with speed := a.speed + pressure * 18 }
        let b' := { b₁ with speed := b₁.speed + pressure * 32,
                            distance := min b₁.distance (a.distance - 14) }
        a' :: draftPass b' rest
      else a :: draftPass b₁ rest

/-- The controlled-car contact loop of apply_drafting
(src/main.py lines 960-965): cars of the player lane with
0 < distance < 42 gain a contact speed boost and contribute to the
returned player contact total. -/
def contactPass : List Car → ℚ → List Car × ℚ
  | [], acc => ([], acc)
  | c :: rest, acc =>
    if 0 < c.distance ∧ c.distance < 42 then
      let contact := (42 - c.distance) / 42
      let c' := { c with speed := c.speed + contact * 28 }
      let r := contactPass rest (acc + contact * 30)
      (c' :: r.1, r.2)
    else
      let r := contactPass rest acc
      (c :: r.1, r.2)

/-- The occupants of lane `l` after apply_drafting. -/
def draftLaneBlock (cars : List Car) (pl : ℤ) (l : ℤ) : List Car :=
  let out := match sortDesc (laneCars cars l) with
             | [] => []
             | a :: rest => draftPass a rest
  if l = pl then (contactPass out 0).1 else out

/-- apply_drafting from src/main.py lines 939-966: the updated field
and the contact boost returned for the controlled car, capped at 50. -/
def applyDrafting (cars : List Car) (pl : ℤ) : List Car × ℚ :=
  ((laneKeys cars).flatMap (draftLaneBlock cars pl),
   min ((contactPass (lanePairsDraft cars pl) 0).2) 50)
where
  /-- The sorted, pair-passed player lane apply_drafting walks in its
  contact loop. -/
  lanePairsDraft (cars : List Car) (pl : ℤ) : List Car :=
    match sortDesc (laneCars cars pl) with
    | [] => []
    | a :: rest => draftPass a rest

/-- is_lane_clear_for_player from src/main.py lines 969-973. -/
def isLaneClearForPlayer (target_lane : ℤ) (cars : List Car)
    (safety_distance : ℚ) : Bool :=
  cars.all (fun c => !(c.lane_index = target_lane ∧ |c.distance| < safety_distance))

/-- The per-frame controlled-car lane logic of main
(src/main.py lines 1417-1431): decrement the cooldown; while controls
are locked force the middle lane; otherwise, on an eligible key press,
accept the adjacent lane only if clear, starting the cooldown.
Returns the new lane target and cooldown. -/
def playerLaneUpdate (lane_count : ℤ) (control_locked : Bool)
    (lane_target : ℤ) (lane_cooldown delta : ℚ)
    (keyLeft keyRight : Bool) (cars : List Car) : ℤ × ℚ :=
  let cd := max 0 (lane_cooldown - delta)
  if control_locked then (lane_count / 2, cd)
  else if cd ≤ 0 then
    if keyLeft then
      let desired := max 0 (lane_target - 1)
      if desired ≠ lane_target ∧
          isLaneClearForPlayer desired cars LANE_SAFETY_DISTANCE then
        (desired, LANE_CHANGE_COOLDOWN)
      else (lane_target, cd)
    else if keyRight then
      let desired := min (lane_count - 1) (lane_target + 1)
      if desired ≠ lane_target ∧
          isLaneClearForPlayer desired cars LANE_SAFETY_DISTANCE then
        (desired, LANE_CHANGE_COOLDOWN)
      else (lane_target, cd)
    else (lane_target, cd)
  else (lane_target, cd)

/-- The per-frame rolling timer update of main (src/main.py line 1407). -/
def rollingTimerStep (t delta : ℚ) : ℚ := max 0 (t - delta)

/-- control_locked from src/main.py line 1408: locked while the
rolling timer is positive. -/
def controlLockedOf (t : ℚ) : Bool := decide (0 < t)

/-- The rolling-start ramp target of main (src/main.py lines 1441-1442). -/
def rampTargetMph (rolling_timer : ℚ) : ℚ :=
  let progress := clamp (1 - rolling_timer / ROLLING_DURATION) 0 1
  ROLLING_START_MIN_MPH + progress * (ROLLING_START_MAX_MPH - ROLLING_START_MIN_MPH)

/-- The unlocked (racing) target of main (src/main.py lines 1444-1447). -/
def racingTargetMph (draft_bonus contact_boost turn_penalty : ℚ) (brake : Bool) : ℚ :=
  let t := CONTROLLED_BASE_MPH + draft_bonus * 18 + contact_boost * 0.28 - turn_penalty
  let t := if brake then BRAKE_MPH else t
  clamp t BRAKE_MPH (CONTROLLED_BASE_MPH + 40)

/-- The per-frame controlled-car target speed of main
(src/main.py lines 1440-1447): the ramp while locked, the racing
formula otherwise. -/
def frameTargetMph (rolling_timer draft_bonus contact_boost turn_penalty : ℚ)
    (brake : Bool) : ℚ :=
  if controlLockedOf rolling_timer then rampTargetMph rolling_timer
  else racingTargetMph draft_bonus contact_boost turn_penalty brake

/-- The blocking scan of attempt_lane_changes
(src/main.py lines 882-883): some other car in the same lane strictly
ahead within 160 units.  `i` is the position of the current car, used
for the object-identity test of the Python code. -/
def hasBlocking (cars : List Car) (i : ℕ) (car : Car) : Bool :=
  cars.enum.any (fun p =>
    p.1 ≠ i ∧ p.2.lane_index = car.lane_index ∧
    0 < p.2.distance - car.distance ∧ p.2.distance - car.distance < 160)

/-- The conflict scan of attempt_lane_changes
(src/main.py lines 891-897): some other car in the candidate lane
within 170 units in either direction. -/
def hasConflict (cars : List Car) (i : ℕ) (car : Car) (new_lane : ℤ) : Bool :=
  cars.enum.any (fun p =>
    p.1 ≠ i ∧ p.2.lane_index = new_lane ∧ |p.2.distance - car.distance| < 170)

/-- One candidate direction of attempt_lane_changes
(src/main.py lines 887-902): in-range and conflict-free moves commit
the lane change and reset the cooldown to 0.6. -/
def tryLane (cars : List Car) (lane_count : ℤ) (i : ℕ) (car : Car) (d : ℤ) :
    Option Car :=
  if 0 ≤ car.lane_index + d ∧ car.lane_index + d < lane_count then
    if hasConflict cars i car (car.lane_index + d) then none
    else some { car with lane_index := car.lane_index + d, lane_change_timer := 0.6 }
  else none

/-- One iteration of the attempt_lane_changes loop for the car at
position `i`.  `dirRng` is the injected source for the
random.choice([-1, 1]) draw, consumed only for blocked cars, and `k`
the next draw index. -/
def lcStep (lane_count : ℤ) (dirRng : ℕ → Bool) (st : List Car × ℕ) (i : ℕ) :
    List Car × ℕ :=
  match st.1[i]? with
  | none => st
  | some car =>
    if 0 < car.lane_change_timer then st
    else if hasBlocking st.1 i car then
      let d : ℤ := if dirRng st.2 then 1 else -1
      match tryLane st.1 lane_count i car d with
      | some car' => (st.1.set i car', st.2 + 1)
      | none =>
        match tryLane st.1 lane_count i car (-d) with
        | some car' => (st.1.set i car', st.2 + 1)
        | none => (st.1, st.2 + 1)
    else st

/-- attempt_lane_changes from src/main.py lines 878-902: the cars are
visited in collection order; each eligible blocked car tries a random
direction then its opposite against the current state of the field. -/
def attemptLaneChanges (cars : List Car) (lane_count : ℤ) (dirRng : ℕ → Bool) :
    List Car :=
  ((List.range cars.length).foldl (lcStep lane_count dirRng) (cars, 0)).1

/-! ### Statement-level predicates and fixtures -/

open CarState

/-- The interpenetration check of the distance monotonic clamp
property: some consecutive pair of the given list has both cars
RUNNING and a gap below COLLISION_GAP. -/
def hasAdjacentRunningViolation (l : List Car) : Bool :=
  (l.zip l.tail).any (fun p =>
    p.1.state = RUNNING ∧ p.2.state = RUNNING ∧
    p.1.distance - p.2.distance < COLLISION_GAP)

/-- Adjacent-pair soundness: if both cars of a consecutive pair are
RUNNING, their gap is at least COLLISION_GAP. -/
def adjOK (x y : Car) : Prop :=
  x.state = RUNNING → y.state = RUNNING → COLLISION_GAP ≤ x.distance - y.distance

/-- A concrete car fixture for witnesses and counterexamples. -/
def mkCar (l : ℤ) (d s : ℚ) (st : CarState) : Car :=
  { lane_index := l, distance := d, speed := s, aggression := 1,
    lane_change_timer := 0, state := st, crash_timer := 0,
    spin_angle := 0, spin_speed := 0, driver := 0 }

/-- A fixed injected random source for concrete scenarios. -/
def rngZero : ℕ → ℚ := fun _ => 0

/-! ### Helper lemmas about move_toward -/

theorem abs_move_toward_sub_le (v t step : ℚ) (h : 0 ≤ step) :
    |move_toward v t step - v| ≤ step := by
  unfold move_toward
  rcases lt_trichotomy v t with hvt | hvt | hvt
  · rw [if_pos hvt, abs_le]
    have h1 := min_le_left (v + step) t
    have h2 : v ≤ min (v + step) t := le_min (by linarith) (le_of_lt hvt)
    constructor <;> linarith
  · simp [hvt, h]
  · rw [if_neg (by linarith), if_pos hvt, abs_le]
    have h1 := le_max_left (v - step) t
    have h2 : max (v - step) t ≤ v := max_le (by linarith) (le_of_lt hvt)
    constructor <;> linarith

theorem move_toward_between (v t step : ℚ) (h : 0 ≤ step) :
    min v t ≤ move_toward v t step ∧ move_toward v t step ≤ max v t := by
  unfold move_toward
  rcases lt_trichotomy v t with hvt | hvt | hvt
  · rw [if_pos hvt]
    have h1 : v ≤ min (v + step) t := le_min (by linarith) (le_of_lt hvt)
    have h2 := min_le_right (v + step) t
    have h3 := min_le_left v t
    have h4 := le_max_right v t
    constructor <;> linarith
  · simp [hvt]
  · rw [if_neg (by linarith), if_pos hvt]
    have h1 : max (v - step) t ≤ v := max_le (by linarith) (le_of_lt hvt)
    have h2 := le_max_right (v - step) t
    have h3 := min_le_right v t
    have h4 := le_max_left v t
    constructor <;> linarith

/-! ### Claim C4 -/

/-- Claim C4: for a RUNNING vehicle, one update call sets the target
speed to frameReferenceSpeed plus (aggression - 1) times K, with K
equal to 12 when controls are locked and 32 otherwise, moves the speed
toward that target by at most acceleration times dt without
overshooting the target, decreases the distance by
(speed - frameReferenceSpeed) times dt, and floors the resulting
distance at -48 when controls are locked. -/
theorem claim_C4 (c : Car) (delta v : ℚ) (locked : Bool)
    (hrun : c.state = RUNNING) (hagg : 0 < c.aggression) (hdt : 0 ≤ delta) :
    (carUpdate c delta v locked).1.speed
        = move_toward c.speed (v + (c.aggression - 1) * (if locked then 12 else 32))
            ((if locked then (280 : ℚ) else 360 * c.aggression) * delta) ∧
    |(carUpdate c delta v locked).1.speed - c.speed|
        ≤ (if locked then (280 : ℚ) else 360 * c.aggression) * delta ∧
    min c.speed (v + (c.aggression - 1) * (if locked then 12 else 32))
        ≤ (carUpdate c delta v locked).1.speed ∧
    (carUpdate c delta v locked).1.speed
        ≤ max c.speed (v + (c.aggression - 1) * (if locked then 12 else 32)) ∧
    (carUpdate c delta v locked).1.distance
        = (if locked then
             max (c.distance - ((carUpdate c delta v locked).1.speed - v) * delta) (-48)
           else c.distance - ((carUpdate c delta v locked).1.speed - v) * delta) := by
  have hstep : (0 : ℚ) ≤ (if locked then (280 : ℚ) else 360 * c.aggression) * delta := by
    cases locked <;> simp only [if_true, if_false, Bool.false_eq_true]
    · positivity
    · positivity
  have habs := abs_move_toward_sub_le c.speed
    (v + (c.aggression - 1) * (if locked then 12 else 32))
    ((if locked then (280 : ℚ) else 360 * c.aggression) * delta) hstep
  have hbet := move_toward_between c.speed
    (v + (c.aggression - 1) * (if locked then 12 else 32))
    ((if locked then (280 : ℚ) else 360 * c.aggression) * delta) hstep
  cases locked <;>
    simp only [carUpdate, hrun, if_true, if_false, Bool.false_eq_true] <;>
    simp only [carUpdate, hrun, if_true, if_false, Bool.false_eq_true] at habs hbet <;>
    refine ⟨?_, habs, hbet.1, hbet.2, ?_⟩ <;> trivial

/-- Witness for claim C4 at a concrete RUNNING car. -/
theorem claim_C4_witness :
    (mkCar 0 0 0 RUNNING).state = RUNNING ∧ (0 : ℚ) < (mkCar 0 0 0 RUNNING).aggression ∧
    (carUpdate (mkCar 0 0 0 RUNNING) 1 100 false).1.speed
      = move_toward (mkCar 0 0 0 RUNNING).speed
          (100 + ((mkCar 0 0 0 RUNNING).aggression - 1) * 32)
          (360 * (mkCar 0 0 0 RUNNING).aggression * 1) := by
  refine ⟨rfl, by norm_num [mkCar], ?_⟩
  have h := claim_C4 (mkCar 0 0 0 RUNNING) 1 100 false rfl (by norm_num [mkCar]) (by norm_num)
  simpa using h.1

/-! ### Claim C5 -/

/-- Claim C5: in every state and for every input, Vehicle.update
returns true exactly when the distance after the update is strictly
below -400, the recycle signal. -/
theorem claim_C5 (c : Car) (delta v : ℚ) (locked : Bool) :
    (carUpdate c delta v locked).2 = true ↔
      (carUpdate c delta v locked).1.distance < -400 := by
  cases hst : c.state <;>
    simp only [carUpdate, hst] <;>
    (try split_ifs) <;>
    simp [decide_eq_true_iff]

/-! ### Claim C1 -/

theorem lanePass_head (rng : ℕ → ℚ) (a : Car) (rest : List Car) (k : ℕ) :
    ∃ h t, (lanePass rng a rest k).1 = h :: t ∧ h.distance = a.distance ∧
      (h.state = RUNNING → a.state = RUNNING) := by
  cases rest with
  | nil => exact ⟨a, [], rfl, rfl, fun h => h⟩
  | cons b r =>
    simp only [lanePass]
    split_ifs with h1 h2 h3
    · exact ⟨_, _, rfl, rfl, fun hc => by simp at hc⟩
    · exact ⟨_, _, rfl, rfl, fun hc => h1.1⟩
    · exact ⟨_, _, rfl, rfl, fun hc => hc⟩
    · exact ⟨_, _, rfl, rfl, fun hc => hc⟩

theorem lanePass_chain (rng : ℕ → ℚ) (a : Car) (rest : List Car) (k : ℕ) :
    List.Chain' adjOK (lanePass rng a rest k).1 := by
  induction rest generalizing a k with
  | nil => simp [lanePass]
  | cons b r ih =>
    simp only [lanePass]
    split_ifs with h1 h2 h3
    · obtain ⟨h, t, heq, hdist, hstate⟩ := lanePass_head rng
        { b with state := CRASHING, crash_timer := 1.2, spin_speed := rng (k + 1),
                 distance := min b.distance (a.distance - COLLISION_GAP) } r (k + 2)
      simp only [heq, List.chain'_cons]
      refine ⟨fun hc _ => ?_, heq ▸ ih _ (k + 2)⟩
      simp at hc
    · obtain ⟨h, t, heq, hdist, hstate⟩ := lanePass_head rng
        { b with speed := max 0 (b.speed - max 0 ((b.speed - a.speed) * 0.45) * 0.35),
                 distance := min b.distance (a.distance - COLLISION_GAP) } r k
      simp only [heq, List.chain'_cons]
      refine ⟨fun _ _ => ?_, heq ▸ ih _ k⟩
      have hb : h.distance ≤ a.distance - COLLISION_GAP := by
        rw [hdist]; exact min_le_right _ _
      show COLLISION_GAP ≤ a.distance - h.distance
      linarith
    · obtain ⟨h, t, heq, hdist, hstate⟩ := lanePass_head rng b r k
      simp only [heq, List.chain'_cons]
      refine ⟨fun _ _ => ?_, heq ▸ ih _ k⟩
      rw [hdist]
      linarith [not_le.mp h2]
    · obtain ⟨h, t, heq, hdist, hstate⟩ := lanePass_head rng b r k
      simp only [heq, List.chain'_cons]
      exact ⟨fun haR hhR => absurd ⟨haR, hstate hhR⟩ h1, heq ▸ ih _ k⟩

theorem lanePairs_chain (cars : List Car) (rng : ℕ → ℚ) (l : ℤ) :
    List.Chain' adjOK (lanePairs cars rng l).1 := by
  unfold lanePairs
  cases sortDesc (laneCars cars l) with
  | nil => simp
  | cons a rest => exact lanePass_chain rng a rest 0

/-- Claim C1 (amended): after the consecutive-pair pass of
resolve_collisions, every pair of cars adjacent in the per-lane
processing order (the descending-distance sort taken at the start of
the pass) that are both still RUNNING has a gap of at least
COLLISION_GAP; for every lane other than the controlled-car lane this
is also the state after the full resolve_collisions pass.  (As stated,
over the post-pass distance order or inside the controlled-car lane,
the claim fails: see the counterexample.) -/
theorem claim_C1 (cars : List Car) (rng : ℕ → ℚ) (l pl : ℤ) (ps : ℚ) :
    List.Chain' adjOK (lanePairs cars rng l).1 ∧
    (l ≠ pl → List.Chain' adjOK (resolveLaneBlock cars pl ps rng l)) := by
  refine ⟨lanePairs_chain cars rng l, fun hne => ?_⟩
  unfold resolveLaneBlock
  rw [if_neg hne]
  exact lanePairs_chain cars rng l

/-- Witness for claim C1 on a concrete two-car lane distinct from the
controlled-car lane. -/
theorem claim_C1_witness :
    (0 : ℤ) ≠ 1 ∧
    List.Chain' adjOK (resolveLaneBlock
      [mkCar 0 100 0 RUNNING, mkCar 0 99 0 RUNNING] 1 0 rngZero 0) := by
  exact ⟨by decide,
    (claim_C1 [mkCar 0 100 0 RUNNING, mkCar 0 99 0 RUNNING] rngZero 0 1 0).2 (by decide)⟩

/-- Counterexample to claim C1 as stated.  First scenario: lane 0
holds cars at distances 100, 99 (both RUNNING), 95 (DISABLED) and 92
(RUNNING); the pair pass clamps the 99 car to 86 behind the 100 car
and skips every pair involving the DISABLED car, so after the pass the
lane sorted by distance descending is 100 (RUNNING), 95 (DISABLED),
92 (RUNNING), 86 (RUNNING): the consecutive RUNNING pair 92/86 has gap
6 < COLLISION_GAP.  Second scenario: in the controlled-car lane, cars
at 20 and 13 (both RUNNING, reference speed 0) end at 20 and 14 - the
pair pass clamps 13 to 6, then the player floor raises it back to
COLLISION_GAP - leaving a consecutive RUNNING pair with gap
6 < COLLISION_GAP even in processing order. -/
theorem claim_C1_counterexample :
    hasAdjacentRunningViolation (sortDesc (resolveCollisions
      [mkCar 0 100 0 RUNNING, mkCar 0 99 0 RUNNING,
       mkCar 0 95 0 DISABLED, mkCar 0 92 0 RUNNING] 1 0 rngZero).1) = true ∧
    hasAdjacentRunningViolation ((resolveCollisions
      [mkCar 0 20 0 RUNNING, mkCar 0 13 0 RUNNING] 0 0 rngZero).1) = true ∧
    hasAdjacentRunningViolation (sortDesc (resolveCollisions
      [mkCar 0 20 0 RUNNING, mkCar 0 13 0 RUNNING] 0 0 rngZero).1) = true := by
  norm_num [hasAdjacentRunningViolation, sortDesc, insertDesc, resolveCollisions,
    laneKeys, resolveLaneBlock, resolvePlayerDelta, lanePairs, laneCars, lanePass,
    playerPass, mkCar, rngZero, COLLISION_GAP, CRASH_REL_UNITS, CRASH_REL_MPH,
    SPEED_SCALE, List.dedup_cons_of_mem, List.dedup_cons_of_not_mem]

/-! ### Claim C2 -/

/-- Claim C2 (amended): for a same-lane pair of RUNNING AI cars whose
gap equals COLLISION_GAP - 1 and whose trailing car is faster than the
lead car by 30 MPH-equivalent, i.e. 30 * SPEED_SCALE = 114 simulation
units (exceeding CRASH_REL_UNITS = 91.2), one resolve_collisions pass
leaves both cars CRASHING with positive crash_timer and the trailing
distance clamped to lead.distance - COLLISION_GAP.  (As stated, with a
closing rate of 30 simulation units, no crash occurs: see the
counterexample.) -/
theorem claim_C2 (lead trail : Car) (pl : ℤ) (ps : ℚ) (rng : ℕ → ℚ)
    (hlane : trail.lane_index = lead.lane_index)
    (hpl : lead.lane_index ≠ pl)
    (hlr : lead.state = RUNNING) (htr : trail.state = RUNNING)
    (hgap : lead.distance - trail.distance = COLLISION_GAP - 1)
    (hrel : trail.speed - lead.speed = 30 * SPEED_SCALE) :
    ∃ lead' trail',
      (resolveCollisions [lead, trail] pl ps rng).1 = [lead', trail'] ∧
      lead'.state = CRASHING ∧ trail'.state = CRASHING ∧
      0 < lead'.crash_timer ∧ 0 < trail'.crash_timer ∧
      trail'.distance = lead.distance - COLLISION_GAP := by
  have hCG : COLLISION_GAP = 14 := rfl
  have hkeys : laneKeys [lead, trail] = [lead.lane_index] := by
    simp [laneKeys, hlane, List.dedup_cons_of_mem, List.dedup_cons_of_not_mem]
  have hlc : laneCars [lead, trail] lead.lane_index = [lead, trail] := by
    simp [laneCars, hlane]
  have hsort : sortDesc [lead, trail] = [lead, trail] := by
    simp only [sortDesc, List.foldr_cons, List.foldr_nil, insertDesc]
    rw [if_pos (by rw [hCG] at hgap; linarith)]
  have hgle : lead.distance - trail.distance ≤ COLLISION_GAP := by
    rw [hgap, hCG]; norm_num
  have hcrash : trail.speed - lead.speed > CRASH_REL_UNITS := by
    rw [hrel]; norm_num [CRASH_REL_UNITS, CRASH_REL_MPH, SPEED_SCALE]
  have hpass : (lanePass rng lead [trail] 0).1 =
      [{ lead with state := CRASHING, crash_timer := 1.2, spin_speed := rng 0 },
       { trail with state := CRASHING, crash_timer := 1.2, spin_speed := rng 1,
                    distance := min trail.distance (lead.distance - COLLISION_GAP) }] := by
    simp only [lanePass]
    rw [if_pos ⟨hlr, htr⟩, if_pos hgle, if_pos hcrash]
  refine ⟨{ lead with state := CRASHING, crash_timer := 1.2, spin_speed := rng 0 },
    { trail with state := CRASHING, crash_timer := 1.2, spin_speed := rng 1,
                 distance := min trail.distance (lead.distance - COLLISION_GAP) },
    ?_, rfl, rfl, by norm_num, by norm_num, ?_⟩
  · show ((laneKeys [lead, trail]).flatMap
      (resolveLaneBlock [lead, trail] pl ps rng)) = _
    rw [hkeys]
    simp only [List.flatMap_cons, List.flatMap_nil, List.append_nil]
    unfold resolveLaneBlock lanePairs
    rw [if_neg hpl, hlc, hsort]
    exact hpass
  · show min trail.distance (lead.distance - COLLISION_GAP) = lead.distance - COLLISION_GAP
    rw [min_eq_right (by rw [hCG] at hgap ⊢; linarith)]

/-- Witness for claim C2 at concrete cars: gap 13, closing rate 114. -/
theorem claim_C2_witness :
    ∃ lead' trail',
      (resolveCollisions [mkCar 0 100 0 RUNNING, mkCar 0 87 114 RUNNING] 1 0 rngZero).1
        = [lead', trail'] ∧
      lead'.state = CRASHING ∧ trail'.state = CRASHING ∧
      0 < lead'.crash_timer ∧ 0 < trail'.crash_timer ∧
      trail'.distance = (mkCar 0 100 0 RUNNING).distance - COLLISION_GAP :=
  claim_C2 (mkCar 0 100 0 RUNNING) (mkCar 0 87 114 RUNNING) 1 0 rngZero
    rfl (by decide) rfl rfl
    (by norm_num [mkCar, COLLISION_GAP])
    (by norm_num [mkCar, SPEED_SCALE])

/-- Counterexample to claim C2 as stated: a pair in lane 0 (reference
lane 1), lead at distance 100 speed 0, trail at distance 87 speed 30 -
the gap is COLLISION_GAP - 1 and the trailing car exceeds the lead by
exactly 30 simulation units, yet 30 does not exceed
CRASH_REL_UNITS = 91.2, so the resolver takes the bump branch and both
cars remain RUNNING (not CRASHING). -/
theorem claim_C2_counterexample :
    (mkCar 0 100 0 RUNNING).distance - (mkCar 0 87 30 RUNNING).distance
        = COLLISION_GAP - 1 ∧
    (mkCar 0 87 30 RUNNING).speed - (mkCar 0 100 0 RUNNING).speed = 30 ∧
    ((resolveCollisions [mkCar 0 100 0 RUNNING, mkCar 0 87 30 RUNNING] 1 0 rngZero).1.map
        (fun c => c.state)) = [RUNNING, RUNNING] := by
  refine ⟨by norm_num [mkCar, COLLISION_GAP], by norm_num [mkCar], ?_⟩
  norm_num [resolveCollisions, laneKeys, resolveLaneBlock, resolvePlayerDelta,
    lanePairs, laneCars, lanePass, playerPass, sortDesc, insertDesc, mkCar, rngZero,
    COLLISION_GAP, CRASH_REL_UNITS, CRASH_REL_MPH, SPEED_SCALE,
    List.dedup_cons_of_mem, List.dedup_cons_of_not_mem]

/-! ### Claim C3 -/

/-- Claim C3 (amended): the rolling-start target ramps linearly with
the rolling timer, equals ROLLING_START_MIN_MPH at t = 0 (timer at
ROLLING_DURATION), and the ramp formula evaluated at timer = 0 equals
ROLLING_START_MAX_MPH; however on the very tick the timer reaches
zero the Race Controller is already in unlocked-control mode (the
racing-branch target applies that same frame, not the next); the
ROLLING_START to RACING transition is one-way: the timer never
increases and once the controls are unlocked they never re-lock.
(As stated - the ramp emitting ROLLING_START_MAX_MPH on the expiry
tick, with unlock only on the following frame - the claim fails: see
the counterexample.) -/
theorem claim_C3 :
    rampTargetMph ROLLING_DURATION = ROLLING_START_MIN_MPH ∧
    rampTargetMph 0 = ROLLING_START_MAX_MPH ∧
    (∀ t : ℚ, 0 ≤ t → t ≤ ROLLING_DURATION →
      rampTargetMph t = ROLLING_START_MIN_MPH
        + (1 - t / ROLLING_DURATION) * (ROLLING_START_MAX_MPH - ROLLING_START_MIN_MPH)) ∧
    controlLockedOf 0 = false ∧
    (∀ db cb tp : ℚ, ∀ brake : Bool,
      frameTargetMph 0 db cb tp brake = racingTargetMph db cb tp brake) ∧
    (∀ t delta : ℚ, 0 ≤ t → 0 ≤ delta → rollingTimerStep t delta ≤ t) ∧
    (∀ delta : ℚ, 0 ≤ delta → rollingTimerStep 0 delta = 0) ∧
    (∀ t delta : ℚ, 0 ≤ delta → controlLockedOf t = false →
      controlLockedOf (rollingTimerStep t delta) = false) := by
  have h5 : ROLLING_DURATION = 5 := by norm_num [ROLLING_DURATION]
  refine ⟨?_, ?_, ?_, ?_, ?_, ?_, ?_, ?_⟩
  · norm_num [rampTargetMph, clamp, ROLLING_DURATION, ROLLING_START_MIN_MPH,
      ROLLING_START_MAX_MPH]
  · norm_num [rampTargetMph, clamp, ROLLING_DURATION, ROLLING_START_MIN_MPH,
      ROLLING_START_MAX_MPH]
  · intro t ht0 ht5
    rw [h5] at ht5
    have hd0 : (0 : ℚ) ≤ t / ROLLING_DURATION := by rw [h5]; positivity
    have hd1 : t / ROLLING_DURATION ≤ 1 := by
      rw [h5, div_le_one (by norm_num)]; linarith
    unfold rampTargetMph clamp
    rw [min_eq_left (by linarith), max_eq_right (by linarith)]
  · simp [controlLockedOf]
  · intro db cb tp brake
    simp [frameTargetMph, controlLockedOf]
  · intro t delta ht hd
    exact max_le ht (by linarith)
  · intro delta hd
    exact max_eq_left (by linarith)
  · intro t delta hd hf
    simp only [controlLockedOf, decide_eq_false_iff_not, not_lt] at hf ⊢
    rw [rollingTimerStep, max_eq_left (by linarith)]

/-- Witness for claim C3: the linear-ramp conjunct evaluated one
second into the rolling start. -/
theorem claim_C3_witness :
    rampTargetMph 1 = ROLLING_START_MIN_MPH
      + (1 - 1 / ROLLING_DURATION) * (ROLLING_START_MAX_MPH - ROLLING_START_MIN_MPH) :=
  claim_C3.2.2.1 1 (by norm_num) (by norm_num [ROLLING_DURATION])

/-- Counterexample to claim C3 as stated: a frame entered with
rolling timer 0.01 and dt = 1/60 is the exact tick the timer expires;
the code leaves it at 0, the controls are already unlocked on that
same frame, and with the brake held the frame target is
BRAKE_MPH = 120, not ROLLING_START_MAX_MPH = 200. -/
theorem claim_C3_counterexample :
    rollingTimerStep 0.01 (1 / 60) = 0 ∧
    controlLockedOf (rollingTimerStep 0.01 (1 / 60)) = false ∧
    frameTargetMph (rollingTimerStep 0.01 (1 / 60)) 0 0 0 true = BRAKE_MPH ∧
    BRAKE_MPH ≠ ROLLING_START_MAX_MPH := by
  have hz : rollingTimerStep 0.01 (1 / 60) = 0 := by
    rw [rollingTimerStep, show (0.01 : ℚ) - 1 / 60 = -(1 / 150) by norm_num,
      max_eq_left (by norm_num)]
  refine ⟨hz, by rw [hz]; simp [controlLockedOf], ?_, ?_⟩
  · rw [hz]
    simp only [frameTargetMph, controlLockedOf]
    norm_num [racingTargetMph, clamp, BRAKE_MPH, CONTROLLED_BASE_MPH]
  · norm_num [BRAKE_MPH, ROLLING_START_MAX_MPH]

/-! ### State-machine helper lemmas -/

/-- A DISABLED car stays DISABLED across a pointwise pass. -/
def stateOK (a b : Car) : Prop := a.state = DISABLED → b.state = DISABLED

theorem forall2_trans {R : Car → Car → Prop}
    (hR : ∀ a b c, R a b → R b c → R a c) :
    ∀ {l1 l2 l3 : List Car}, List.Forall₂ R l1 l2 → List.Forall₂ R l2 l3 →
      List.Forall₂ R l1 l3 := by
  intro l1 l2 l3 h12 h23
  induction h12 generalizing l3 with
  | nil => cases h23; exact List.Forall₂.nil
  | cons hh ht ih =>
    cases h23 with
    | cons hh2 ht2 => exact List.Forall₂.cons (hR _ _ _ hh hh2) (ih ht2)

theorem forall2_head_convert {R : Car → Car → Prop} {x y : Car} {l out : List Car}
    (h : List.Forall₂ R (y :: l) out) (hxy : ∀ z, R y z → R x z) :
    List.Forall₂ R (x :: l) out := by
  cases h with
  | cons hh ht => exact List.Forall₂.cons (hxy _ hh) ht

theorem lanePass_forall2 (rng : ℕ → ℚ) (a : Car) (rest : List Car) (k : ℕ) :
    List.Forall₂ stateOK (a :: rest) (lanePass rng a rest k).1 := by
  induction rest generalizing a k with
  | nil => exact List.Forall₂.cons (fun h => h) List.Forall₂.nil
  | cons b r ih =>
    simp only [lanePass]
    split_ifs with h1 h2 h3
    · refine List.Forall₂.cons (fun h => absurd h1.1 (by rw [h]; simp)) ?_
      refine forall2_head_convert (ih _ (k + 2)) ?_
      intro z hz hb
      exact absurd h1.2 (by rw [hb]; simp)
    · refine List.Forall₂.cons (fun h => h) ?_
      refine forall2_head_convert (ih _ k) ?_
      intro z hz hb
      exact hz hb
    · exact List.Forall₂.cons (fun h => h) (forall2_head_convert (ih _ k) (fun z hz hb => hz hb))
    · exact List.Forall₂.cons (fun h => h) (forall2_head_convert (ih _ k) (fun z hz hb => hz hb))

theorem playerPass_forall2 (ps : ℚ) (rng : ℕ → ℚ) (l : List Car) (k : ℕ) (acc : ℚ) :
    List.Forall₂ stateOK l (playerPass ps rng l k acc).1 := by
  induction l generalizing k acc with
  | nil => exact List.Forall₂.nil
  | cons c rest ih =>
    simp only [playerPass]
    split_ifs with h1 h2
    · exact List.Forall₂.cons (fun h => absurd h1.1 (by rw [h]; simp)) (ih _ _)
    · exact List.Forall₂.cons (fun h => h) (ih _ _)
    · exact List.Forall₂.cons (fun h => h) (ih _ _)

theorem draftPass_forall2 (a : Car) (rest : List Car) :
    List.Forall₂ (fun x y => y.state = x.state) (a :: rest) (draftPass a rest) := by
  induction rest generalizing a with
  | nil => exact List.Forall₂.cons rfl List.Forall₂.nil
  | cons b r ih =>
    simp only [draftPass]
    split_ifs with h1 h2 h3
    all_goals exact List.Forall₂.cons rfl (forall2_head_convert (ih _) (fun z hz => hz))

theorem contactPass_forall2 (l : List Car) (acc : ℚ) :
    List.Forall₂ (fun x y => y.state = x.state) l (contactPass l acc).1 := by
  induction l generalizing acc with
  | nil => exact List.Forall₂.nil
  | cons c rest ih =>
    simp only [contactPass]
    split_ifs with h1
    · exact List.Forall₂.cons rfl (ih _)
    · exact List.Forall₂.cons rfl (ih _)

theorem resolveLaneBlock_forall2 (cars : List Car) (rng : ℕ → ℚ) (l pl : ℤ) (ps : ℚ) :
    List.Forall₂ stateOK (sortDesc (laneCars cars l))
      (resolveLaneBlock cars pl ps rng l) := by
  have htrans : ∀ a b c : Car, stateOK a b → stateOK b c → stateOK a c :=
    fun a b c h1 h2 h => h2 (h1 h)
  have hpairs : List.Forall₂ stateOK (sortDesc (laneCars cars l)) (lanePairs cars rng l).1 := by
    unfold lanePairs
    cases sortDesc (laneCars cars l) with
    | nil => exact List.Forall₂.nil
    | cons a rest => exact lanePass_forall2 rng a rest 0
  unfold resolveLaneBlock
  split_ifs with hpl
  · exact forall2_trans htrans hpairs (playerPass_forall2 ps rng _ _ 0)
  · exact hpairs

theorem draftLaneBlock_forall2 (cars : List Car) (pl l : ℤ) :
    List.Forall₂ (fun x y => y.state = x.state)
      (sortDesc (laneCars cars l)) (draftLaneBlock cars pl l) := by
  have htrans : ∀ a b c : Car, (fun x y => y.state = x.state) a b →
      (fun x y => y.state = x.state) b c → (fun x y => y.state = x.state) a c :=
    fun a b c h1 h2 => h2.trans h1
  have hpairs : List.Forall₂ (fun x y => y.state = x.state)
      (sortDesc (laneCars cars l))
      (match sortDesc (laneCars cars l) with
       | [] => []
       | a :: rest => draftPass a rest) := by
    cases sortDesc (laneCars cars l) with
    | nil => exact List.Forall₂.nil
    | cons a rest => exact draftPass_forall2 a rest
  unfold draftLaneBlock
  split_ifs with hpl
  · exact forall2_trans htrans hpairs (contactPass_forall2 _ 0)
  · exact hpairs

/-! ### Lane-change pass helper lemmas -/

/-- Everything attempt_lane_changes must leave untouched, plus the
in-range guarantee for any lane index it does change. -/
def lanePreserved (lane_count : ℤ) (c c' : Car) : Prop :=
  c'.distance = c.distance ∧ c'.speed = c.speed ∧ c'.state = c.state ∧
  c'.crash_timer = c.crash_timer ∧ c'.spin_speed = c.spin_speed ∧
  c'.spin_angle = c.spin_angle ∧ c'.aggression = c.aggression ∧
  c'.driver = c.driver ∧
  (c'.lane_index ≠ c.lane_index → 0 ≤ c'.lane_index ∧ c'.lane_index < lane_count)

theorem lanePreserved_refl (lane_count : ℤ) (c : Car) : lanePreserved lane_count c c :=
  ⟨rfl, rfl, rfl, rfl, rfl, rfl, rfl, rfl, fun h => absurd rfl h⟩

theorem lanePreserved_trans (lane_count : ℤ) (a b c : Car)
    (h1 : lanePreserved lane_count a b) (h2 : lanePreserved lane_count b c) :
    lanePreserved lane_count a c := by
  obtain ⟨d1, s1, st1, ct1, sp1, sa1, ag1, dr1, ln1⟩ := h1
  obtain ⟨d2, s2, st2, ct2, sp2, sa2, ag2, dr2, ln2⟩ := h2
  refine ⟨d2.trans d1, s2.trans s1, st2.trans st1, ct2.trans ct1, sp2.trans sp1,
    sa2.trans sa1, ag2.trans ag1, dr2.trans dr1, fun hne => ?_⟩
  by_cases hcb : c.lane_index = b.lane_index
  · rw [hcb] at hne ⊢
    exact ln1 hne
  · exact ln2 hcb

theorem tryLane_spec {d : ℤ} (cars : List Car) (lane_count : ℤ) (i : ℕ)
    (car car' : Car)
    (h : tryLane cars lane_count i car d = some car') :
    lanePreserved lane_count car car' := by
  unfold tryLane at h
  split_ifs at h with h1 h2
  injection h with h
  subst h
  exact ⟨rfl, rfl, rfl, rfl, rfl, rfl, rfl, rfl, fun _ => h1⟩

/-- Pointwise preservation between two car lists of equal length. -/
def listPreserved (lane_count : ℤ) (l1 l2 : List Car) : Prop :=
  l2.length = l1.length ∧
  ∀ (j : ℕ) (c c' : Car), l1[j]? = some c → l2[j]? = some c' →
    lanePreserved lane_count c c'

theorem listPreserved_refl (lane_count : ℤ) (l : List Car) :
    listPreserved lane_count l l :=
  ⟨rfl, fun _ c c' h1 h2 => by
    rw [h1] at h2
    injection h2 with h2
    exact h2 ▸ lanePreserved_refl lane_count c⟩

theorem getElem?_lt_length {l : List Car} {j : ℕ} {c : Car}
    (h : l[j]? = some c) : j < l.length := by
  by_contra hnot
  rw [List.getElem?_eq_none (by omega)] at h
  cases h

theorem listPreserved_trans (lane_count : ℤ) (l1 l2 l3 : List Car)
    (h1 : listPreserved lane_count l1 l2) (h2 : listPreserved lane_count l2 l3) :
    listPreserved lane_count l1 l3 := by
  obtain ⟨hl1, hp1⟩ := h1
  obtain ⟨hl2, hp2⟩ := h2
  refine ⟨hl2.trans hl1, fun j c c' hc hc' => ?_⟩
  have hj : j < l2.length := by
    have := getElem?_lt_length hc
    omega
  have hmid : l2[j]? = some (l2.get ⟨j, hj⟩) := by
    rw [List.getElem?_eq_getElem hj]
    rfl
  exact lanePreserved_trans lane_count c _ c'
    (hp1 j c _ hc hmid) (hp2 j _ c' hmid hc')

theorem set_preserved (lane_count : ℤ) (l : List Car) (i : ℕ) (car car' : Car)
    (hm : l[i]? = some car) (hcc : lanePreserved lane_count car car') :
    listPreserved lane_count l (l.set i car') := by
  refine ⟨List.length_set l i car' ▸ rfl, fun j c c' hc hc' => ?_⟩
  by_cases hji : j = i
  · subst hji
    rw [hm] at hc
    injection hc with hc
    rw [List.getElem?_set_self (getElem?_lt_length hm)] at hc'
    injection hc' with hc'
    subst hc; subst hc'
    exact hcc
  · rw [List.getElem?_set_ne (fun h => hji h.symm)] at hc'
    rw [hc] at hc'
    injection hc' with hc'
    exact hc' ▸ lanePreserved_refl lane_count c

theorem lcStep_preserved (lane_count : ℤ) (dirRng : ℕ → Bool)
    (st : List Car × ℕ) (i : ℕ) :
    listPreserved lane_count st.1 (lcStep lane_count dirRng st i).1 := by
  unfold lcStep
  cases hm : st.1[i]? with
  | none => exact listPreserved_refl lane_count st.1
  | some car =>
    dsimp only
    by_cases h1 : 0 < car.lane_change_timer
    · rw [if_pos h1]
      exact listPreserved_refl lane_count st.1
    · rw [if_neg h1]
      by_cases h2 : hasBlocking st.1 i car = true
      · rw [if_pos h2]
        split
        · next car' heq =>
            exact set_preserved lane_count st.1 i car car' hm
              (tryLane_spec st.1 lane_count i car car' heq)
        · next heq =>
            split
            · next car' heq2 =>
                exact set_preserved lane_count st.1 i car car' hm
                  (tryLane_spec st.1 lane_count i car car' heq2)
            · next heq2 => exact listPreserved_refl lane_count st.1
      · rw [if_neg h2]
        exact listPreserved_refl lane_count st.1

theorem foldl_lcStep_preserved (lane_count : ℤ) (dirRng : ℕ → Bool) :
    ∀ (idxs : List ℕ) (st : List Car × ℕ),
      listPreserved lane_count st.1 ((idxs.foldl (lcStep lane_count dirRng) st)).1 := by
  intro idxs
  induction idxs with
  | nil => exact fun st => listPreserved_refl lane_count st.1
  | cons i rest ih =>
    intro st
    exact listPreserved_trans lane_count _ _ _
      (lcStep_preserved lane_count dirRng st i)
      (ih (lcStep lane_count dirRng st i))

theorem attemptLaneChanges_preserved (cars : List Car) (lane_count : ℤ)
    (dirRng : ℕ → Bool) :
    listPreserved lane_count cars (attemptLaneChanges cars lane_count dirRng) :=
  foldl_lcStep_preserved lane_count dirRng (List.range cars.length) (cars, 0)

/-! ### Claim C6 -/

/-- Claim C6: a CRASHING vehicle whose crash timer is decremented to
zero or below during an update call is DISABLED at the end of that
same call, and no core operation - update, drafting, lane changes, or
collision resolution - ever moves a DISABLED vehicle out of DISABLED
(in particular never back to RUNNING). -/
theorem claim_C6 :
    (∀ (c : Car) (delta v : ℚ) (locked : Bool), c.state = CRASHING →
      c.crash_timer - delta ≤ 0 → (carUpdate c delta v locked).1.state = DISABLED) ∧
    (∀ (c : Car) (delta v : ℚ) (locked : Bool), c.state = DISABLED →
      (carUpdate c delta v locked).1.state = DISABLED) ∧
    (∀ (cars : List Car) (rng : ℕ → ℚ) (l pl : ℤ) (ps : ℚ),
      List.Forall₂ (fun a b => a.state = DISABLED → b.state = DISABLED)
        (sortDesc (laneCars cars l)) (resolveLaneBlock cars pl ps rng l)) ∧
    (∀ (cars : List Car) (pl l : ℤ),
      List.Forall₂ (fun a b => b.state = a.state)
        (sortDesc (laneCars cars l)) (draftLaneBlock cars pl l)) ∧
    (∀ (cars : List Car) (lane_count : ℤ) (dirRng : ℕ → Bool) (i : ℕ) (c c' : Car),
      cars[i]? = some c →
      (attemptLaneChanges cars lane_count dirRng)[i]? = some c' →
      c'.state = c.state) := by
  refine ⟨?_, ?_, ?_, ?_, ?_⟩
  · intro c delta v locked h1 h2
    simp [carUpdate, h1, h2]
  · intro c delta v locked h
    simp [carUpdate, h]
  · intro cars rng l pl ps
    exact resolveLaneBlock_forall2 cars rng l pl ps
  · intro cars pl l
    exact draftLaneBlock_forall2 cars pl l
  · intro cars lane_count dirRng i c c' hc hc'
    exact ((attemptLaneChanges_preserved cars lane_count dirRng).2 i c c' hc hc').2.2.1

/-- Witness for claim C6: a CRASHING car with an expiring timer is
DISABLED after the update. -/
theorem claim_C6_witness :
    (carUpdate (mkCar 0 0 0 CRASHING) 1 0 false).1.state = DISABLED :=
  claim_C6.1 (mkCar 0 0 0 CRASHING) 1 0 false rfl (by norm_num [mkCar])

/-! ### Claim C10 -/

/-- Claim C10: attempt_lane_changes mutates only lane_index and
lane_change_timer - distance, speed, state, crash_timer, spin_speed
and driver identity are unchanged for every car - and any car whose
lane index it changes ends within [0, lane_count). -/
theorem claim_C10 (cars : List Car) (lane_count : ℤ) (dirRng : ℕ → Bool) :
    (attemptLaneChanges cars lane_count dirRng).length = cars.length ∧
    ∀ (i : ℕ) (c c' : Car), cars[i]? = some c →
      (attemptLaneChanges cars lane_count dirRng)[i]? = some c' →
      c'.distance = c.distance ∧ c'.speed = c.speed ∧ c'.state = c.state ∧
      c'.crash_timer = c.crash_timer ∧ c'.spin_speed = c.spin_speed ∧
      c'.driver = c.driver ∧
      (c'.lane_index ≠ c.lane_index →
        0 ≤ c'.lane_index ∧ c'.lane_index < lane_count) := by
  obtain ⟨hlen, hp⟩ := attemptLaneChanges_preserved cars lane_count dirRng
  refine ⟨hlen, fun i c c' hc hc' => ?_⟩
  obtain ⟨d, s, st, ct, sp, sa, ag, dr, ln⟩ := hp i c c' hc hc'
  exact ⟨d, s, st, ct, sp, dr, ln⟩

/-- Witness for claim C10 on a concrete one-car field. -/
theorem claim_C10_witness :
    ∃ c', (attemptLaneChanges [mkCar 0 5 3 RUNNING] 2 (fun _ => true))[0]? = some c' ∧
      c'.distance = (mkCar 0 5 3 RUNNING).distance ∧
      c'.speed = (mkCar 0 5 3 RUNNING).speed ∧
      c'.state = (mkCar 0 5 3 RUNNING).state := by
  have h := claim_C10 [mkCar 0 5 3 RUNNING] 2 (fun _ => true)
  have h0lt : 0 < (attemptLaneChanges [mkCar 0 5 3 RUNNING] 2 (fun _ => true)).length := by
    rw [h.1]
    norm_num
  have h0 : (attemptLaneChanges [mkCar 0 5 3 RUNNING] 2 (fun _ => true))[0]? =
      some ((attemptLaneChanges [mkCar 0 5 3 RUNNING] 2 (fun _ => true)).get ⟨0, h0lt⟩) := by
    rw [List.getElem?_eq_getElem h0lt]
    rfl
  obtain ⟨d, s, st, _⟩ := h.2 0 (mkCar 0 5 3 RUNNING) _ rfl h0
  exact ⟨_, h0, d, s, st⟩

/-! ### Claim C7 -/

/-- Claim C7: in apply_drafting, for a lane holding exactly one
(lead, trail) pair with gap strictly between 0 and 160, the slipstream
speed addend received by the trailing car is 28 * (1 - gap / 160) - on
top of which the short-range bumper-pressure addend applies below 28 -
and that slipstream addend is non-decreasing as the gap shrinks from
160 toward 0, reaching its full magnitude 28 at gap 0. -/
theorem claim_C7 (lead trail : Car) (pl : ℤ)
    (hlane : trail.lane_index = lead.lane_index) (hpl : lead.lane_index ≠ pl)
    (hpos : 0 < lead.distance - trail.distance)
    (hlt : lead.distance - trail.distance < 160) :
    ((draftLaneBlock [lead, trail] pl lead.lane_index).map (fun c => c.speed))
      = [lead.speed + (if lead.distance - trail.distance < 28 then
            ((28 - (lead.distance - trail.distance)) / 28) * 18 else 0),
         trail.speed + slipstreamAddend (lead.distance - trail.distance)
           + (if lead.distance - trail.distance < 28 then
              ((28 - (lead.distance - trail.distance)) / 28) * 32 else 0)] ∧
    (∀ g1 g2 : ℚ, 0 < g2 → g2 ≤ g1 → g1 < 160 →
      slipstreamAddend g1 ≤ slipstreamAddend g2) ∧
    slipstreamAddend 0 = 28 ∧
    (∀ g : ℚ, slipstreamAddend g = 28 * (1 - g / 160)) := by
  have hlc : laneCars [lead, trail] lead.lane_index = [lead, trail] := by
    simp [laneCars, hlane]
  have hsort : sortDesc [lead, trail] = [lead, trail] := by
    simp only [sortDesc, List.foldr_cons, List.foldr_nil, insertDesc]
    rw [if_pos (by linarith)]
  refine ⟨?_, ?_, ?_, ?_⟩
  · unfold draftLaneBlock
    rw [hlc, hsort, if_neg hpl]
    simp only [draftPass]
    rw [if_neg (by linarith), if_pos hlt]
    split_ifs with h28
    · simp [draftPass]
    · simp [draftPass]
  · intro g1 g2 hg2 hle hg1
    unfold slipstreamAddend
    linarith
  · norm_num [slipstreamAddend]
  · intro g
    rfl

/-- Witness for claim C7: monotonicity applied to a concrete pair at
gap 60 and to the gaps 100 and 50. -/
theorem claim_C7_witness :
    slipstreamAddend 100 ≤ slipstreamAddend 50 :=
  (claim_C7 (mkCar 0 100 0 RUNNING) (mkCar 0 40 50 RUNNING) 1 rfl (by decide)
    (by norm_num [mkCar]) (by norm_num [mkCar])).2.1 100 50
    (by norm_num) (by norm_num) (by norm_num)

/-! ### Claim C8 -/

/-- Claim C8: when the cooldown has expired and controls are
unlocked, the controlled-car lane-change request toward an existing
adjacent lane is denied exactly when some AI car in the destination
lane lies strictly within LANE_SAFETY_DISTANCE of the controlled
position (distance 0); otherwise the request is accepted, the lane
target becomes the adjacent lane, and the LANE_CHANGE_COOLDOWN of
0.18 s starts. -/
theorem claim_C8 (lane_count lane_target : ℤ) (cooldown delta : ℚ)
    (cars : List Car) (hcd : max 0 (cooldown - delta) ≤ 0) :
    (∀ t : ℤ, isLaneClearForPlayer t cars LANE_SAFETY_DISTANCE = true ↔
      ¬∃ c ∈ cars, c.lane_index = t ∧ |c.distance| < LANE_SAFETY_DISTANCE) ∧
    (max 0 (lane_target - 1) ≠ lane_target →
      ((∃ c ∈ cars, c.lane_index = max 0 (lane_target - 1) ∧
          |c.distance| < LANE_SAFETY_DISTANCE) →
        playerLaneUpdate lane_count false lane_target cooldown delta true false cars
          = (lane_target, max 0 (cooldown - delta))) ∧
      (¬(∃ c ∈ cars, c.lane_index = max 0 (lane_target - 1) ∧
          |c.distance| < LANE_SAFETY_DISTANCE) →
        playerLaneUpdate lane_count false lane_target cooldown delta true false cars
          = (max 0 (lane_target - 1), LANE_CHANGE_COOLDOWN))) ∧
    (min (lane_count - 1) (lane_target + 1) ≠ lane_target →
      ((∃ c ∈ cars, c.lane_index = min (lane_count - 1) (lane_target + 1) ∧
          |c.distance| < LANE_SAFETY_DISTANCE) →
        playerLaneUpdate lane_count false lane_target cooldown delta false true cars
          = (lane_target, max 0 (cooldown - delta))) ∧
      (¬(∃ c ∈ cars, c.lane_index = min (lane_count - 1) (lane_target + 1) ∧
          |c.distance| < LANE_SAFETY_DISTANCE) →
        playerLaneUpdate lane_count false lane_target cooldown delta false true cars
          = (min (lane_count - 1) (lane_target + 1), LANE_CHANGE_COOLDOWN))) := by
  have hclear : ∀ t : ℤ, isLaneClearForPlayer t cars LANE_SAFETY_DISTANCE = true ↔
      ¬∃ c ∈ cars, c.lane_index = t ∧ |c.distance| < LANE_SAFETY_DISTANCE := by
    intro t
    simp only [isLaneClearForPlayer, List.all_eq_true, Bool.not_eq_true',
      decide_eq_false_iff_not, not_exists, not_and]
  refine ⟨hclear, fun hne => ⟨?_, ?_⟩, fun hne => ⟨?_, ?_⟩⟩
  · intro hex
    unfold playerLaneUpdate
    simp only [Bool.false_eq_true, if_false, if_pos hcd, if_true]
    rw [if_neg]
    intro hcontra
    exact ((hclear _).mp hcontra.2) hex
  · intro hnex
    unfold playerLaneUpdate
    simp only [Bool.false_eq_true, if_false, if_pos hcd, if_true]
    rw [if_pos ⟨hne, (hclear _).mpr hnex⟩]
  · intro hex
    unfold playerLaneUpdate
    simp only [Bool.false_eq_true, if_false, if_pos hcd, if_true]
    rw [if_neg]
    intro hcontra
    exact ((hclear _).mp hcontra.2) hex
  · intro hnex
    unfold playerLaneUpdate
    simp only [Bool.false_eq_true, if_false, if_pos hcd, if_true]
    rw [if_pos ⟨hne, (hclear _).mpr hnex⟩]

/-- Witness for claim C8: from lane 1 of a 2-lane track, a left
request with a blocking car at distance 50 in lane 0 is denied, and
with the blocker removed it is accepted with the 0.18 s cooldown. -/
theorem claim_C8_witness :
    playerLaneUpdate 2 false 1 0 (1 / 60) true false [mkCar 0 50 0 RUNNING]
      = (1, max 0 (0 - 1 / 60)) ∧
    playerLaneUpdate 2 false 1 0 (1 / 60) true false [mkCar 1 50 0 RUNNING]
      = (0, LANE_CHANGE_COOLDOWN) := by
  constructor
  · have h := (claim_C8 2 1 0 (1 / 60) [mkCar 0 50 0 RUNNING]
      (by norm_num)).2.1 (by decide)
    have := h.1 ⟨mkCar 0 50 0 RUNNING, by norm_num [mkCar, LANE_SAFETY_DISTANCE]⟩
    simpa using this
  · have h := (claim_C8 2 1 0 (1 / 60) [mkCar 1 50 0 RUNNING]
      (by norm_num)).2.1 (by decide)
    have := h.2 (by
      rintro ⟨c, hc, hl, hd⟩
      simp only [List.mem_singleton] at hc
      subst hc
      exact absurd hl (by decide))
    simpa using this

/-! ### Claim C9 -/

theorem playerPass_delta_le (ps : ℚ) (rng : ℕ → ℚ) (l : List Car) (k : ℕ) (acc : ℚ) :
    (playerPass ps rng l k acc).2.1 ≤ acc := by
  induction l generalizing k acc with
  | nil => exact le_refl acc
  | cons c rest ih =>
    simp only [playerPass]
    split_ifs with h1 h2
    · have := ih (k + 1) (acc - 8)
      linarith
    · have := ih k (acc - min 3 (max 0 ((ps - c.speed) * 0.45) / SPEED_SCALE * 0.35))
      have hnn : (0 : ℚ) ≤ min 3 (max 0 ((ps - c.speed) * 0.45) / SPEED_SCALE * 0.35) := by
        refine le_min (by norm_num) ?_
        have h0 : (0 : ℚ) ≤ max 0 ((ps - c.speed) * 0.45) := le_max_left 0 _
        have hs : (0 : ℚ) < SPEED_SCALE := by norm_num [SPEED_SCALE]
        positivity
      linarith
    · exact ih k acc

/-- Claim C9: the player MPH delta returned by resolve_collisions is
never positive: a player-lane crash contributes exactly -8 and a
player-lane bump contributes between -3 and 0, so collision resolution
can only reduce the controlled speed. -/
theorem claim_C9 :
    (∀ (cars : List Car) (pl : ℤ) (ps : ℚ) (rng : ℕ → ℚ),
      (resolveCollisions cars pl ps rng).2 ≤ 0) ∧
    (∀ (ps : ℚ) (rng : ℕ → ℚ) (c : Car) (k : ℕ) (acc : ℚ),
      c.state = RUNNING → 0 < c.distance → c.distance ≤ COLLISION_GAP →
      ((ps - c.speed > CRASH_REL_UNITS →
          (playerPass ps rng [c] k acc).2.1 = acc - 8) ∧
       (¬(ps - c.speed > CRASH_REL_UNITS) →
          acc - 3 ≤ (playerPass ps rng [c] k acc).2.1 ∧
          (playerPass ps rng [c] k acc).2.1 ≤ acc))) := by
  constructor
  · intro cars pl ps rng
    exact playerPass_delta_le ps rng _ _ 0
  · intro ps rng c k acc h1 h2 h3
    constructor
    · intro hcr
      simp only [playerPass]
      rw [if_pos ⟨h1, h2, h3⟩, if_pos hcr]
    · intro hcr
      simp only [playerPass]
      rw [if_pos ⟨h1, h2, h3⟩, if_neg hcr]
      have hle3 : min 3 (max 0 ((ps - c.speed) * 0.45) / SPEED_SCALE * 0.35) ≤ 3 :=
        min_le_left _ _
      have hnn : (0 : ℚ) ≤ min 3 (max 0 ((ps - c.speed) * 0.45) / SPEED_SCALE * 0.35) := by
        refine le_min (by norm_num) ?_
        have h0 : (0 : ℚ) ≤ max 0 ((ps - c.speed) * 0.45) := le_max_left 0 _
        have hs : (0 : ℚ) < SPEED_SCALE := by norm_num [SPEED_SCALE]
        positivity
      constructor <;> simp only [playerPass] <;> linarith

/-- Witness for claim C9: a single RUNNING player-lane car at
distance 10 with reference speed 500 crashes and costs exactly 8 MPH. -/
theorem claim_C9_witness :
    (playerPass 500 rngZero [mkCar 0 10 0 RUNNING] 0 0).2.1 = 0 - 8 :=
  (claim_C9.2 500 rngZero (mkCar 0 10 0 RUNNING) 0 0 rfl
    (by norm_num [mkCar]) (by norm_num [mkCar, COLLISION_GAP])).1
    (by norm_num [mkCar, CRASH_REL_UNITS, CRASH_REL_MPH, SPEED_SCALE])

end Nascar
